import Mathlib

/-! Verification development for the flight-control core of a small UAV firmware
    (quadcopter / flying-wing).  The Rust sources are shallowly embedded:
    `f32` arithmetic is modelled by exact rational arithmetic (`ℚ`), machine
    integers by `ℕ` with explicit wrapping (`% 2^w`) where the source can wrap,
    and fallible decoding by `Except`.  Stateful functions become explicit
    state-passing functions. -/

namespace Quadcopter

/-! Constants and the PID controller primitive, from `src/pid.rs`. -/

/-- Integrator clamp ceiling for the quad build (`INTEGRATOR_CLAMP_MAX_QUAD`, pid.rs). -/
def INTEGRATOR_CLAMP_MAX_QUAD : ℚ := 0.4

/-- Integrator clamp floor (`INTEGRATOR_CLAMP_MIN_QUAD`, pid.rs). -/
def INTEGRATOR_CLAMP_MIN_QUAD : ℚ := -INTEGRATOR_CLAMP_MAX_QUAD

/-- Attenuation of the rate-loop D term at full throttle (`TPA_MIN_ATTEN`, pid.rs). -/
def TPA_MIN_ATTEN : ℚ := 0.5

/-- Throttle setting at which TPA starts to engage (`TPA_BREAKPOINT`, pid.rs). -/
def TPA_BREAKPOINT : ℚ := 0.3

/-- Modelled from the spec: `MAX_ROTOR_POWER` lives in `flight_ctrls::quad`, a module
    that is not among the provided sources.  The spec fixes rotor power to the range
    0..1 (power values are "0..1 power" throughout), so maximum rotor power is 1. -/
def MAX_ROTOR_POWER : ℚ := 1

/-- Cached slope of the TPA line (`TPA_SLOPE`, pid.rs). -/
def TPA_SLOPE : ℚ := (TPA_MIN_ATTEN - 1) / (MAX_ROTOR_POWER - TPA_BREAKPOINT)

/-- Cached intercept of the TPA line (`TPA_Y_INT`, pid.rs). -/
def TPA_Y_INT : ℚ := -(TPA_SLOPE * TPA_BREAKPOINT - 1)

/-- Linear falloff of the D term past the TPA breakpoint (`tpa_adjustment`, pid.rs). -/
def tpa_adjustment (throttle : ℚ) : ℚ := TPA_SLOPE * throttle + TPA_Y_INT

/-- Scale applied to the rate-loop D gain in `run_rate_quad` (pid.rs): engage
    `tpa_adjustment` only above the breakpoint, otherwise scale by 1. -/
def tpa_scaler (throttle : ℚ) : ℚ :=
  if throttle > TPA_BREAKPOINT then tpa_adjustment throttle else 1

/-- Per-axis controller memory (`PidState`, pid.rs). -/
structure PidState where
  measurement : ℚ
  e : ℚ
  p : ℚ
  i : ℚ
  d : ℚ
  deriving DecidableEq

/-- Rust `Default` for `PidState`: all fields zero. -/
def PidState.default : PidState := ⟨0, 0, 0, 0, 0⟩

/-- Dynamic integrator anti-windup clamp (`PidState::anti_windup_clamp`, pid.rs):
    the allowed integral band is computed relative to the instantaneous
    proportional term `error_p`. -/
def PidState.anti_windup_clamp (s : PidState) (error_p : ℚ) : PidState :=
  let lim_max_int : ℚ :=
    if INTEGRATOR_CLAMP_MAX_QUAD > error_p then INTEGRATOR_CLAMP_MAX_QUAD - error_p else 0
  let lim_min_int : ℚ :=
    if INTEGRATOR_CLAMP_MIN_QUAD < error_p then INTEGRATOR_CLAMP_MIN_QUAD - error_p else 0
  if s.i > lim_max_int then { s with i := lim_max_int }
  else if s.i < lim_min_int then { s with i := lim_min_int }
  else s

/-- Controller output accessor (`PidState::out`, pid.rs). -/
def PidState.out (s : PidState) : ℚ := s.p + s.i + s.d

/-- State of a single direct-form-1 biquad stage (the CMSIS filter state used for the
    PID derivative low-pass filter, pid.rs `PidDerivFilters`). -/
structure BiquadState where
  x1 : ℚ
  x2 : ℚ
  y1 : ℚ
  y2 : ℚ
  deriving DecidableEq

/-- Biquad filter coefficient `b0` of `COEFFS_D` (pid.rs). -/
def COEFFS_D_B0 : ℚ := 0.037804754170896473

/-- Biquad filter coefficient `b1` of `COEFFS_D` (pid.rs). -/
def COEFFS_D_B1 : ℚ := 0.037804754170896473

/-- Biquad filter coefficient `b2` of `COEFFS_D` (pid.rs). -/
def COEFFS_D_B2 : ℚ := 0

/-- Biquad filter coefficient `a1` of `COEFFS_D` (pid.rs; the array stores `-a` terms). -/
def COEFFS_D_A1 : ℚ := 0.9243904916582071

/-- Biquad filter coefficient `a2` of `COEFFS_D` (pid.rs). -/
def COEFFS_D_A2 : ℚ := 0

/-- One sample through the CMSIS direct-form-1 biquad initialised with `COEFFS_D`
    (`dsp_api::biquad_cascade_df1_f32` with block size 1):
    `y = b0*x + b1*x1 + b2*x2 + a1*y1 + a2*y2`, then the delay line shifts. -/
def biquad_df1 (st : BiquadState) (x : ℚ) : ℚ × BiquadState :=
  let y := COEFFS_D_B0 * x + COEFFS_D_B1 * st.x1 + COEFFS_D_B2 * st.x2
    + COEFFS_D_A1 * st.y1 + COEFFS_D_A2 * st.y2
  (y, ⟨x, st.x1, y, st.y1⟩)

/-- The PID error update (`calc_pid_error`, pid.rs).  Returns the new `PidState`
    together with the advanced derivative-filter state. -/
def calc_pid_error (set_pt measurement : ℚ) (prev_pid : PidState)
    (k_p k_i k_d : ℚ) (filter : BiquadState) (dt : ℚ) : PidState × BiquadState :=
  let error := set_pt - measurement
  let error_p := k_p * error
  let error_i := k_i * (error + prev_pid.e) / 2 * dt + prev_pid.i
  let error_d_prefilt := k_d * (measurement - prev_pid.measurement) / dt
  let fd := biquad_df1 filter error_d_prefilt
  let result : PidState :=
    { measurement := measurement, e := error, p := error_p, i := error_i, d := fd.1 }
  (result.anti_windup_clamp error_p, fd.2)

/-! Arming state machine, from `src/safety.rs` (quad build: two-state `ArmStatus`). -/

/-- Master motor arm status (`ArmStatus`, safety.rs, quad build). -/
inductive ArmStatus where
  | Disarmed
  | Armed
  deriving DecidableEq

/-- Abstraction constant `MOTORS_ARMED` (safety.rs, quad build). -/
def MOTORS_ARMED : ArmStatus := ArmStatus.Armed

/-- Number of consecutive matching switch reads required to arm or disarm
    (`NUM_ARM_DISARM_SIGNALS_REQUIRED`, safety.rs). -/
def NUM_ARM_DISARM_SIGNALS_REQUIRED : ℕ := 5

/-- Maximum throttle at which arming is accepted (`THROTTLE_MAX_TO_ARM`, safety.rs). -/
def THROTTLE_MAX_TO_ARM : ℚ := 0.005

/-- State touched by `handle_arm_status` (safety.rs): the two `u8` debounce counters
    and `has_taken_off` flag passed by `&mut`, the `ArmStatus` itself, and the two
    module-level atomics `RECEIVED_INITIAL_DISARM` / `ARM_COMMANDED_WITHOUT_IDLE`. -/
structure SafetyState where
  arm_signals_received : ℕ
  disarm_signals_received : ℕ
  arm_status : ArmStatus
  has_taken_off : Bool
  received_initial_disarm : Bool
  arm_commanded_without_idle : Bool
  deriving DecidableEq

/-- One control-cycle evaluation of the arming logic (`handle_arm_status`, safety.rs).
    The `u8` counters increment with wrapping (release-mode semantics), though they
    are reset at 5 in every reachable path. -/
def handle_arm_status (st : SafetyState) (controller_arm_status : ArmStatus)
    (throttle : ℚ) : SafetyState :=
  match st.arm_status with
  | ArmStatus.Armed =>
    let st1 :=
      if controller_arm_status ≠ MOTORS_ARMED then
        { st with disarm_signals_received := (st.disarm_signals_received + 1) % 256 }
      else
        { st with disarm_signals_received := 0 }
    if st1.disarm_signals_received ≥ NUM_ARM_DISARM_SIGNALS_REQUIRED then
      { st1 with disarm_signals_received := 0, arm_status := controller_arm_status, has_taken_off := false }
    else st1
  | ArmStatus.Disarmed =>
    let st1 :=
      if controller_arm_status = MOTORS_ARMED then
        { st with arm_signals_received := (st.arm_signals_received + 1) % 256 }
      else
        { st with received_initial_disarm := true, arm_commanded_without_idle := false, arm_signals_received := 0 }
    if st1.arm_signals_received ≥ NUM_ARM_DISARM_SIGNALS_REQUIRED then
      let st2 := { st1 with arm_signals_received := 0 }
      if ¬ st2.arm_commanded_without_idle then
        if throttle < THROTTLE_MAX_TO_ARM then
          if ¬ st2.received_initial_disarm then st2
          else { st2 with arm_status := MOTORS_ARMED }
        else { st2 with arm_commanded_without_idle := true }
      else st2
    else st1

/-- Fold a sequence of (arm-switch reading, throttle) control-cycle inputs through
    the arming state machine. -/
def run_arm_signals (st : SafetyState) (signals : List (ArmStatus × ℚ)) : SafetyState :=
  signals.foldl (fun s sig => handle_arm_status s sig.1 sig.2) st

/-! Flying-wing mixer output stage, from `src/flight_ctrls/flying_wing.rs`, and the
    multirotor `RotorPower` clamp from the earlier firmware tree (`flight_ctrls.rs`). -/

/-- Minimum motor power of the flying wing (`MIN_MOTOR_POWER`, flying_wing.rs). -/
def MIN_MOTOR_POWER : ℚ := 0.02

/-- Maximum motor power of the flying wing (`MAX_MOTOR_POWER`, flying_wing.rs). -/
def MAX_MOTOR_POWER : ℚ := 1

/-- Lower elevon deflection limit (`ELEVON_MIN`, flying_wing.rs). -/
def ELEVON_MIN : ℚ := -1

/-- Upper elevon deflection limit (`ELEVON_MAX`, flying_wing.rs). -/
def ELEVON_MAX : ℚ := 1

/-- Motor and elevon command set (`ControlPositions`, flying_wing.rs). -/
structure ControlPositions where
  motor : ℚ
  elevon_left : ℚ
  elevon_right : ℚ
  deriving DecidableEq

/-- Clamp motor speed and servo motion (`ControlPositions::clamp`, flying_wing.rs). -/
def ControlPositions.clamp (c : ControlPositions) : ControlPositions :=
  { motor :=
      if c.motor < MIN_MOTOR_POWER then MIN_MOTOR_POWER
      else if c.motor > MAX_MOTOR_POWER then MAX_MOTOR_POWER
      else c.motor,
    elevon_left :=
      if c.elevon_left < ELEVON_MIN then ELEVON_MIN
      else if c.elevon_left > ELEVON_MAX then ELEVON_MAX
      else c.elevon_left,
    elevon_right :=
      if c.elevon_right < ELEVON_MIN then ELEVON_MIN
      else if c.elevon_right > ELEVON_MAX then ELEVON_MAX
      else c.elevon_right }

/-- Power levels of the four rotors (`RotorPower`, firmware flight_ctrls.rs). -/
structure RotorPower where
  p1 : ℚ
  p2 : ℚ
  p3 : ℚ
  p4 : ℚ
  deriving DecidableEq

/-- Limit each rotor's power to 0..1 (`RotorPower::clamp`, firmware flight_ctrls.rs). -/
def RotorPower.clamp (r : RotorPower) : RotorPower :=
  { p1 := if r.p1 < 0 then 0 else if r.p1 > 1 then 1 else r.p1,
    p2 := if r.p2 < 0 then 0 else if r.p2 > 1 then 1 else r.p2,
    p3 := if r.p3 < 0 then 0 else if r.p3 > 1 then 1 else r.p3,
    p4 := if r.p4 < 0 then 0 else if r.p4 > 1 then 1 else r.p4 }

/-- Commands emitted towards the actuators in one output cycle: the four DSHOT motor
    power values and the two commanded elevon positions. -/
structure ActuatorCommands where
  motor1 : ℚ
  motor2 : ℚ
  motor3 : ℚ
  motor4 : ℚ
  elevon_s1 : ℚ
  elevon_s2 : ℚ
  deriving DecidableEq

/-- The all-stop / neutral command: zero power on every motor (`dshot::stop_all`)
    and neutral (zero) elevon positions. -/
def all_stop : ActuatorCommands := ⟨0, 0, 0, 0, 0, 0⟩

/-- Output stage of the flying-wing mixer (`ControlPositions::set`, flying_wing.rs):
    armed sends the motor power (motors 2-4 unused, power 0) and the two elevon
    positions; disarmed sends `dshot::stop_all` and neutral elevons, regardless of
    the computed positions. -/
def ControlPositions.set (c : ControlPositions) (arm_status : ArmStatus) : ActuatorCommands :=
  match arm_status with
  | ArmStatus.Armed => ⟨c.motor, 0, 0, 0, c.elevon_left, c.elevon_right⟩
  | ArmStatus.Disarmed => all_stop

/-- Motor powers written by the IMU transfer-complete ISR (main.rs, quad build):
    throttle is floored at 0.025, then `dshot::set_power(p,p,p,p)` if armed, and
    `dshot::stop_all()` otherwise.  The arm check sits directly before the encode. -/
def imu_tc_isr_motor_cmds (arm_status : ArmStatus) (throttle : ℚ) : ℚ × ℚ × ℚ × ℚ :=
  let p := if throttle < 0.025 then 0.025 else throttle
  match arm_status with
  | ArmStatus.Armed => (p, p, p, p)
  | ArmStatus.Disarmed => (0, 0, 0, 0)

/-! DSHOT protocol encoder, from `src/protocols/dshot.rs`. -/

/-- Bidirectional DSHOT enabled (`BIDIR_EN`, dshot.rs). -/
def BIDIR_EN : Bool := true

/-- Frame checksum (`calc_crc`, dshot.rs).  On a `u16` the Rust complement `!x`
    is `x ^^^ 0xFFFF`; the bidirectional variant complements before masking. -/
def calc_crc (packet : ℕ) : ℕ :=
  if BIDIR_EN then ((packet ^^^ (packet >>> 4) ^^^ (packet >>> 8)) ^^^ 0xFFFF) &&& 0x0F
  else (packet ^^^ (packet >>> 4) ^^^ (packet >>> 8)) &&& 0x0F

/-- Payload content selector (`CmdType`, dshot.rs); a reserved command is modelled
    by its `u16` discriminant value. -/
inductive CmdType where
  | Command (code : ℕ)
  | Power (pwr : ℚ)

/-- The 11-bit data word packed by `setup_payload` (dshot.rs): a command code, or
    `(pwr * 1_999.) as u16 + 48`.  A Rust float-to-int `as` cast truncates toward
    zero and saturates at the target type's bounds; the subsequent `u16` add wraps. -/
def setup_payload_data_word : CmdType → ℕ
  | CmdType.Command c => c
  | CmdType.Power pwr => (min (Int.toNat ⌊pwr * 1999⌋) 65535 + 48) % 65536

/-- The 16-bit DSHOT frame assembled by `setup_payload` (dshot.rs): data word,
    telemetry-request bit, then the 4-bit checksum, with `u16` shifts wrapping. -/
def setup_payload_frame (cmd : CmdType) (esc_telem : Bool) : ℕ :=
  let data_word := setup_payload_data_word cmd
  let packet := ((data_word <<< 1) % 65536) ||| (if esc_telem then 1 else 0)
  ((packet <<< 4) % 65536) ||| calc_crc packet

/-! DSHOT bidirectional telemetry decoding, from `src/protocols/dshot.rs`. -/

/-- Decode fault classes (`RpmError`, dshot.rs). -/
inductive RpmError where
  | Gcr
  | Crc
  | TelemType
  deriving DecidableEq

/-- Extended-telemetry field tags (`EscTelemType`, dshot.rs). -/
inductive EscTelemType where
  | Temp
  | Voltage
  | Current
  | Debug1
  | Debug2
  | Debug3
  | State
  deriving DecidableEq

/-- Decoded ESC reply (`EscData`, dshot.rs). -/
inductive EscData where
  | Rpm (v : ℚ)
  | Telem (t : EscTelemType) (val : ℕ)
  deriving DecidableEq

/-- Interpret a validated 16-bit return packet (`rpm_from_data`, dshot.rs): check the
    checksum, then branch on bit 8 between extended telemetry and eRPM data
    (`period = base << shift` microseconds, converted with a 14-pole motor). -/
def rpm_from_data (packet : ℕ) : Except RpmError EscData :=
  let crc := packet &&& 0b1111
  if crc ≠ calc_crc packet then Except.error RpmError.Crc
  else if (packet >>> 8) &&& 1 = 0 then
    let telem_type_val := packet >>> 12
    let val := (packet >>> 4) &&& 0xff
    match telem_type_val with
    | 0x02 => Except.ok (EscData.Telem EscTelemType.Temp val)
    | 0x04 => Except.ok (EscData.Telem EscTelemType.Voltage val)
    | 0x06 => Except.ok (EscData.Telem EscTelemType.Current val)
    | 0x08 => Except.ok (EscData.Telem EscTelemType.Debug1 val)
    | 0x0A => Except.ok (EscData.Telem EscTelemType.Debug2 val)
    | 0x0C => Except.ok (EscData.Telem EscTelemType.Debug3 val)
    | 0x0E => Except.ok (EscData.Telem EscTelemType.State val)
    | _ => Except.error RpmError.TelemType
  else
    let shift := packet >>> 13
    let base := (packet >>> 4) &&& 0b111111111
    let period_us := base <<< shift
    Except.ok (EscData.Rpm (1000000 / ((period_us : ℚ) * 14)))

/-- Convert the received bit-bang buffer to a 21-bit word (`bool_array_to_u32`,
    dshot.rs): entry `i` contributes bit `20 - i`. -/
def bool_array_to_u32 (arr : List Bool) : ℕ :=
  arr.enum.foldl (fun result iv => result ||| ((if iv.2 then 1 else 0) <<< (20 - iv.1))) 0

/-- First GCR de-obfuscation step (`gcr_step_1`, dshot.rs). -/
def gcr_step_1 (val : ℕ) : ℕ := val ^^^ (val >>> 1)

/-- GCR quintet-to-nibble lookup (`reduce_bit_count_helper`, dshot.rs); quintets
    outside the valid set are a decode fault. -/
def reduce_bit_count_helper (val : ℕ) : Except RpmError ℕ :=
  match val with
  | 0x19 => Except.ok 0
  | 0x1b => Except.ok 1
  | 0x12 => Except.ok 2
  | 0x13 => Except.ok 3
  | 0x1d => Except.ok 4
  | 0x15 => Except.ok 5
  | 0x16 => Except.ok 6
  | 0x17 => Except.ok 7
  | 0x1a => Except.ok 8
  | 0x09 => Except.ok 9
  | 0x0a => Except.ok 0xa
  | 0x0b => Except.ok 0xb
  | 0x1e => Except.ok 0xc
  | 0x0d => Except.ok 0xd
  | 0x0e => Except.ok 0xe
  | 0x0f => Except.ok 0xf
  | _ => Except.error RpmError.Gcr

/-- Reduce the 20-bit GCR word to the 16-bit packet (`reduce_gcr_bit_count`, dshot.rs). -/
def reduce_gcr_bit_count (val : ℕ) : Except RpmError ℕ := do
  let nibble_0 := val &&& 0b11111
  let nibble_1 := (val >>> 5) &&& 0b11111
  let nibble_2 := (val >>> 10) &&& 0b11111
  let nibble_3 := (val >>> 15) &&& 0b11111
  let a ← reduce_bit_count_helper nibble_0
  let b ← reduce_bit_count_helper nibble_1
  let c ← reduce_bit_count_helper nibble_2
  let d ← reduce_bit_count_helper nibble_3
  return a ||| (b <<< 4) ||| (c <<< 8) ||| (d <<< 12)

/-- Per-channel helper (`update_rpm_from_packet`, dshot.rs): on success the RPM value
    is replaced (telemetry replies leave it alone); any decode error is returned. -/
def update_rpm_from_packet (rpm : ℚ) (packet : Except RpmError ℕ) : Except RpmError ℚ :=
  match packet with
  | Except.error e => Except.error e
  | Except.ok p =>
    match rpm_from_data p with
    | Except.error e => Except.error e
    | Except.ok (EscData.Rpm r) => Except.ok r
    | Except.ok (EscData.Telem _ _) => Except.ok rpm

/-- Modelled from the spec: the per-motor RPM store `MotorRpm` is defined in
    `flight_ctrls::common`, which is not among the provided sources; it holds one
    rad/s value per rotor position as used by `update_rpms`. -/
structure MotorRpm where
  front_left : ℚ
  front_right : ℚ
  aft_left : ℚ
  aft_right : ℚ
  deriving DecidableEq

/-- Outcome of one channel in `update_rpms` (dshot.rs): on a decode error the RPM is
    left unchanged and the shared fault flag is set; the cycle continues. -/
def apply_rpm_update (rpm : ℚ) (fault : Bool) (packet : Except RpmError ℕ) : ℚ × Bool :=
  match update_rpm_from_packet rpm packet with
  | Except.ok r => (r, fault)
  | Except.error _ => (rpm, true)

/-- One telemetry-reception cycle (`update_rpms`, dshot.rs), over the four bit-bang
    buffers.  Note the source computes `gcr4` from `PAYLOAD_REC_BB_3` — the same
    buffer as `gcr3` — while `PAYLOAD_REC_BB_4` is declared but never read; the
    fourth buffer argument is therefore unused, mirroring the source. -/
def update_rpms (rpms : MotorRpm) (fault : Bool)
    (buf1 buf2 buf3 _buf4 : List Bool) : MotorRpm × Bool :=
  let gcr1 := gcr_step_1 (bool_array_to_u32 buf1)
  let gcr2 := gcr_step_1 (bool_array_to_u32 buf2)
  let gcr3 := gcr_step_1 (bool_array_to_u32 buf3)
  let gcr4 := gcr_step_1 (bool_array_to_u32 buf3)
  let packet1 := reduce_gcr_bit_count gcr1
  let packet2 := reduce_gcr_bit_count gcr2
  let packet3 := reduce_gcr_bit_count gcr3
  let packet4 := reduce_gcr_bit_count gcr4
  let u1 := apply_rpm_update rpms.aft_right fault packet1
  let u2 := apply_rpm_update rpms.front_right u1.2 packet2
  let u3 := apply_rpm_update rpms.aft_left u2.2 packet3
  let u4 := apply_rpm_update rpms.front_left u3.2 packet4
  ({ rpms with aft_right := u1.1, front_right := u2.1, aft_left := u3.1, front_left := u4.1 }, u4.2)

/-! Autopilot mode layer, from `src/autopilot.rs` (quad build of
    `AutopilotStatus::apply`). -/

/-- Altitude reference type (`AltType`, flight_ctrls common module). -/
inductive AltType where
  | Agl
  | Msl
  deriving DecidableEq

/-- Geographic location (`Location`, ppks module): latitude and longitude in radians
    plus MSL altitude in meters. -/
structure Location where
  lat : ℚ
  lon : ℚ
  alt_msl : ℚ
  deriving DecidableEq

/-- Vertical-descent landing profile (`LandingCfg`, autopilot.rs, quad build). -/
structure LandingCfg where
  descent_starting_alt_msl : ℚ
  descent_speed : ℚ
  touchdown_point : Location
  deriving DecidableEq

/-- Modelled from the spec: the four-axis command vector `CtrlInputs` used by
    autopilot.rs is defined in `flight_ctrls::common`, which is not among the
    provided sources; per the spec it carries optional per-axis set-point
    overrides (pitch, roll, yaw, thrust). -/
structure CtrlInputs where
  pitch : Option ℚ
  roll : Option ℚ
  yaw : Option ℚ
  thrust : Option ℚ
  deriving DecidableEq

/-- Modelled from the spec: the slice of the vehicle-state snapshot `Params` read by
    the autopilot apply step (position fix, barometric MSL altitude, optional
    time-of-flight AGL altitude); the defining module is not among the provided
    sources. -/
structure Params where
  lat : ℚ
  lon : ℚ
  baro_alt_msl : ℚ
  tof_alt : Option ℚ
  deriving DecidableEq

/-- Connectivity of the optional sensors consulted by the autopilot
    (`OptionalSensorStatus`, state module). -/
structure OptionalSensorStatus where
  gps_connected : Bool
  tof_connected : Bool
  deriving DecidableEq

/-- Autopilot behavior set (`AutopilotStatus`, autopilot.rs, quad build). -/
structure AutopilotStatus where
  alt_hold : Option (AltType × ℚ)
  hdg_hold : Option ℚ
  yaw_assist : Bool
  roll_assist : Bool
  velocity_vector : Option (ℚ × ℚ)
  direct_to_point : Option Location
  sequence : Bool
  terrain_following : Option ℚ
  takeoff : Bool
  land : Option LandingCfg
  recover : Option ℚ
  loiter : Option Location
  deriving DecidableEq

/-- Modelled from the spec: the thrust-axis attitude-tier PID gains used by the
    apply step (the coefficient struct variant used by autopilot.rs is not among
    the provided sources). -/
structure CtrlCoeffsThrust where
  k_p_attitude : ℚ
  k_i_attitude : ℚ
  k_d_attitude : ℚ
  deriving DecidableEq

/-- Modelled from the spec: `DT_ATTITUDE`, the fixed attitude-loop update interval;
    its concrete value is not among the provided sources and no claim depends on it. -/
def DT_ATTITUDE : ℚ := 1 / 1000

/-- One evaluation of the quad autopilot apply step (`AutopilotStatus::apply`,
    autopilot.rs).  The great-circle bearing computation `find_bearing` is passed
    as a function argument (its trigonometric internals play no role here); it
    receives the same two (lat, lon) pairs the source passes.  Returns the new
    commanded attitudes, commanded rates, thrust `PidState`, and thrust-filter
    state. -/
def AutopilotStatus.apply (self : AutopilotStatus) (params : Params)
    (attitudes_commanded rates_commanded : CtrlInputs)
    (pid_thrust : PidState) (filter_thrust : BiquadState)
    (coeffs_thrust : CtrlCoeffsThrust)
    (optional_sensors : OptionalSensorStatus)
    (find_bearing : (ℚ × ℚ) → (ℚ × ℚ) → ℚ) :
    CtrlInputs × CtrlInputs × PidState × BiquadState :=
  let attitudes1 :=
    if self.takeoff then attitudes_commanded
    else if self.land.isSome then attitudes_commanded
    else
      match self.direct_to_point with
      | some pt =>
        if optional_sensors.gps_connected then
          { attitudes_commanded with
              yaw := some (find_bearing (params.lat, params.lon) (pt.lat, pt.lon)) }
        else attitudes_commanded
      | none => attitudes_commanded
  let attitudes2 :=
    if self.alt_hold.isNone ∧ ¬ self.takeoff ∧ self.land.isNone
        ∧ self.direct_to_point.isNone then
      { attitudes1 with thrust := none }
    else attitudes1
  let rest :=
    match self.alt_hold with
    | some (alt_type, alt_commanded) =>
      if ¬ self.takeoff ∧ self.land.isNone then
        if ¬ (alt_type = AltType.Agl ∧ ¬ optional_sensors.tof_connected) then
          let dist :=
            match alt_type with
            | AltType.Msl => alt_commanded - params.baro_alt_msl
            | AltType.Agl => alt_commanded - params.tof_alt.getD 0
          let pf := calc_pid_error (attitudes2.thrust.getD 0) dist pid_thrust
            coeffs_thrust.k_p_attitude coeffs_thrust.k_i_attitude
            coeffs_thrust.k_d_attitude filter_thrust DT_ATTITUDE
          ({ rates_commanded with thrust := some pf.1.out }, pf.1, pf.2)
        else (rates_commanded, pid_thrust, filter_thrust)
      else (rates_commanded, pid_thrust, filter_thrust)
    | none => (rates_commanded, pid_thrust, filter_thrust)
  (attitudes2, rest.1, rest.2.1, rest.2.2)

/-! Helper lemmas shared by several claim theorems. -/

/-- Idempotence of a single lower/upper if-chain clamp, provided the bounds are ordered. -/
lemma clamp1_idem (lo hi x : ℚ) (h : lo ≤ hi) :
    (if (if x < lo then lo else if x > hi then hi else x) < lo then lo
     else if (if x < lo then lo else if x > hi then hi else x) > hi then hi
     else (if x < lo then lo else if x > hi then hi else x))
    = (if x < lo then lo else if x > hi then hi else x) := by
  split_ifs <;> first | rfl | linarith

/-- The anti-windup clamp only touches the integral field. -/
lemma anti_windup_clamp_p (s : PidState) (ep : ℚ) : (s.anti_windup_clamp ep).p = s.p := by
  unfold PidState.anti_windup_clamp
  dsimp only
  split_ifs <;> rfl

/-- Core bound provided by the dynamic anti-windup clamp: after clamping, the
    proportional term plus the integral term is confined to the clamp ceiling,
    enlarged only by the magnitude of the proportional term itself. -/
lemma anti_windup_abs_bound (s : PidState) (ep : ℚ) :
    |ep + (s.anti_windup_clamp ep).i| ≤ max |ep| INTEGRATOR_CLAMP_MAX_QUAD := by
  have hC : (0 : ℚ) < INTEGRATOR_CLAMP_MAX_QUAD := by norm_num [INTEGRATOR_CLAMP_MAX_QUAD]
  have hmin : INTEGRATOR_CLAMP_MIN_QUAD = -INTEGRATOR_CLAMP_MAX_QUAD := rfl
  have h1 := le_max_left |ep| INTEGRATOR_CLAMP_MAX_QUAD
  have h2 := le_max_right |ep| INTEGRATOR_CLAMP_MAX_QUAD
  have h3 := le_abs_self ep
  have h4 := neg_abs_le ep
  unfold PidState.anti_windup_clamp
  dsimp only
  split_ifs with c1 c2 c3 c4 <;>
    simp only [hmin] at * <;>
    rw [abs_le] <;> constructor <;> linarith

/-! Claim theorems. -/

/-- C10: the mixer output clamp is idempotent — for every flying-wing command set
    (motor plus both elevons) and every multirotor rotor-power vector, applying the
    clamp twice yields exactly the same result as applying it once. -/
theorem mixer_clamp_idempotent (c : ControlPositions) (r : RotorPower) :
    (c.clamp).clamp = c.clamp ∧ (r.clamp).clamp = r.clamp := by
  constructor
  · simp only [ControlPositions.clamp, ControlPositions.mk.injEq]
    refine ⟨?_, ?_, ?_⟩ <;>
      exact clamp1_idem _ _ _ (by norm_num [MIN_MOTOR_POWER, MAX_MOTOR_POWER, ELEVON_MIN, ELEVON_MAX])
  · simp only [RotorPower.clamp, RotorPower.mk.injEq]
    refine ⟨?_, ?_, ?_, ?_⟩ <;> exact clamp1_idem 0 1 _ (by norm_num)

/-- C3: if the arm status does not indicate the motors are armed, the mixer's output
    stage (`ControlPositions::set`) emits the all-stop/neutral command, and the
    IMU-ISR output path emits zero motor power, regardless of the computed efforts;
    the check sits immediately before encoding on both output paths. -/
theorem mixer_arm_gate (c : ControlPositions) (a : ArmStatus) (t : ℚ)
    (h : a ≠ ArmStatus.Armed) :
    c.set a = all_stop ∧ imu_tc_isr_motor_cmds a t = (0, 0, 0, 0) := by
  cases a with
  | Armed => exact absurd rfl h
  | Disarmed => exact ⟨rfl, rfl⟩

/-- Witness for C3 at a concrete command set and throttle. -/
theorem mixer_arm_gate_witness :
    ArmStatus.Disarmed ≠ ArmStatus.Armed
    ∧ (ControlPositions.set ⟨0.7, 0.3, -0.2⟩ ArmStatus.Disarmed = all_stop
        ∧ imu_tc_isr_motor_cmds ArmStatus.Disarmed 0.9 = (0, 0, 0, 0)) :=
  ⟨by decide, mixer_arm_gate ⟨0.7, 0.3, -0.2⟩ ArmStatus.Disarmed 0.9 (by decide)⟩

/-- C8: the throttle-PID-attenuation scale equals 1 at or below the breakpoint,
    equals the floor `TPA_MIN_ATTEN` at maximum rotor power, and is non-increasing
    on the interval between breakpoint and maximum power. -/
theorem tpa_scale_properties :
    (∀ t : ℚ, t ≤ TPA_BREAKPOINT → tpa_scaler t = 1)
    ∧ tpa_scaler TPA_BREAKPOINT = 1
    ∧ tpa_scaler MAX_ROTOR_POWER = TPA_MIN_ATTEN
    ∧ ∀ t1 t2 : ℚ, TPA_BREAKPOINT ≤ t1 → t1 ≤ t2 → t2 ≤ MAX_ROTOR_POWER →
        tpa_scaler t2 ≤ tpa_scaler t1 := by
  have hs : TPA_SLOPE = -5 / 7 := by
    norm_num [TPA_SLOPE, TPA_MIN_ATTEN, MAX_ROTOR_POWER, TPA_BREAKPOINT]
  have hy : TPA_Y_INT = 17 / 14 := by
    norm_num [TPA_Y_INT, hs, TPA_BREAKPOINT]
  refine ⟨?_, ?_, ?_, ?_⟩
  · intro t ht
    simp only [tpa_scaler]
    rw [if_neg (by exact not_lt.mpr ht)]
  · simp [tpa_scaler]
  · simp only [tpa_scaler, tpa_adjustment, hs, hy]
    norm_num [MAX_ROTOR_POWER, TPA_BREAKPOINT, TPA_MIN_ATTEN]
  · intro t1 t2 hb h12 hm
    simp only [tpa_scaler, tpa_adjustment, hs, hy]
    have hbp : TPA_BREAKPOINT = 3 / 10 := by norm_num [TPA_BREAKPOINT]
    split_ifs with ha hb2 hb3 <;> rw [hbp] at * <;> linarith

/-- Witness for C8 at concrete throttle values. -/
theorem tpa_scale_properties_witness :
    ((0.2 : ℚ) ≤ TPA_BREAKPOINT ∧ tpa_scaler 0.2 = 1)
    ∧ (TPA_BREAKPOINT ≤ (0.5 : ℚ) ∧ (0.5 : ℚ) ≤ 1 ∧ (1 : ℚ) ≤ MAX_ROTOR_POWER
        ∧ tpa_scaler 1 ≤ tpa_scaler 0.5) :=
  ⟨⟨by norm_num [TPA_BREAKPOINT], tpa_scale_properties.1 0.2 (by norm_num [TPA_BREAKPOINT])⟩,
    ⟨by norm_num [TPA_BREAKPOINT], by norm_num, by norm_num [MAX_ROTOR_POWER],
      tpa_scale_properties.2.2.2 0.5 1 (by norm_num [TPA_BREAKPOINT]) (by norm_num)
        (by norm_num [MAX_ROTOR_POWER])⟩⟩

/-- C1 counterexample: at set-point 1, measurement 0, kp = 1, ki = kd = 0, dt = 1 and
    zero previous state, the state produced by `calc_pid_error` has p = 1, i = 0, so
    |p + i| = 1 exceeds `INTEGRATOR_CLAMP_MAX_QUAD` = 0.4: the clamp bounds only the
    integral band relative to p, not the sum p + i itself. -/
theorem pid_integrator_bound_counterexample :
    INTEGRATOR_CLAMP_MAX_QUAD
      < |((calc_pid_error 1 0 PidState.default 1 0 0 ⟨0, 0, 0, 0⟩ 1).1).p
          + ((calc_pid_error 1 0 PidState.default 1 0 0 ⟨0, 0, 0, 0⟩ 1).1).i| := by
  norm_num [calc_pid_error, PidState.anti_windup_clamp, PidState.default, biquad_df1,
    COEFFS_D_B0, COEFFS_D_B1, COEFFS_D_B2, COEFFS_D_A1, COEFFS_D_A2,
    INTEGRATOR_CLAMP_MAX_QUAD, INTEGRATOR_CLAMP_MIN_QUAD]

/-- C1 amended: for every PID update step, the `PidState` produced by
    `calc_pid_error` after its anti-windup clamp satisfies
    |p + i| ≤ max (|p|, INTEGRATOR_CLAMP_MAX): the integral band is computed
    relative to the instantaneous proportional term, so the integral contribution
    never pushes p + i past the fixed ceiling beyond what the proportional term
    alone already contributes (in particular |p + i| ≤ INTEGRATOR_CLAMP_MAX
    whenever |p| ≤ INTEGRATOR_CLAMP_MAX), for all inputs. -/
theorem pid_integrator_bound_amended (set_pt m k_p k_i k_d dt : ℚ)
    (prev : PidState) (f : BiquadState) :
    |((calc_pid_error set_pt m prev k_p k_i k_d f dt).1).p
        + ((calc_pid_error set_pt m prev k_p k_i k_d f dt).1).i|
      ≤ max |((calc_pid_error set_pt m prev k_p k_i k_d f dt).1).p|
          INTEGRATOR_CLAMP_MAX_QUAD := by
  simp only [calc_pid_error]
  rw [anti_windup_clamp_p]
  exact anti_windup_abs_bound _ _

/-- C5: `calc_pid_error` computes error = set-point − measurement, p = kp·error,
    i = ki·dt/2·(error + previous.error) + previous.i (trapezoidal integration,
    before the anti-windup clamp is applied to it), and the derivative on
    measurement — kd·(measurement − previous.measurement)/dt — passed through the
    low-pass filter before being stored as d; the output accessor returns
    out() = p + i + d. -/
theorem calc_pid_error_formulas (set_pt m k_p k_i k_d dt : ℚ)
    (prev : PidState) (f : BiquadState) :
    calc_pid_error set_pt m prev k_p k_i k_d f dt
      = (PidState.anti_windup_clamp
          { measurement := m, e := set_pt - m, p := k_p * (set_pt - m),
            i := k_i * dt / 2 * ((set_pt - m) + prev.e) + prev.i,
            d := (biquad_df1 f (k_d * (m - prev.measurement) / dt)).1 }
          (k_p * (set_pt - m)),
        (biquad_df1 f (k_d * (m - prev.measurement) / dt)).2)
    ∧ ∀ s : PidState, s.out = s.p + s.i + s.d := by
  refine ⟨?_, fun s => rfl⟩
  have hi : k_i * ((set_pt - m) + prev.e) / 2 * dt + prev.i
      = k_i * dt / 2 * ((set_pt - m) + prev.e) + prev.i := by ring
  simp only [calc_pid_error]
  rw [hi]

/-- Single latched step of the arming machine: while the without-idle latch is set and
    the state is Disarmed, an arm signal (any throttle) leaves both unchanged. -/
lemma handle_arm_latched_step (st : SafetyState) (t : ℚ)
    (hd : st.arm_status = ArmStatus.Disarmed)
    (hl : st.arm_commanded_without_idle = true) :
    (handle_arm_status st MOTORS_ARMED t).arm_status = ArmStatus.Disarmed
    ∧ (handle_arm_status st MOTORS_ARMED t).arm_commanded_without_idle = true := by
  simp only [handle_arm_status, hd]
  split_ifs <;> simp_all

/-- Latched runs of the arming machine: by induction over any sequence of arm signals. -/
lemma run_arm_latched (ts : List ℚ) : ∀ st : SafetyState,
    st.arm_status = ArmStatus.Disarmed → st.arm_commanded_without_idle = true →
    (run_arm_signals st (ts.map (fun x => (MOTORS_ARMED, x)))).arm_status = ArmStatus.Disarmed
    ∧ (run_arm_signals st (ts.map (fun x => (MOTORS_ARMED, x)))).arm_commanded_without_idle
        = true := by
  induction ts with
  | nil => intro st hd hl; exact ⟨hd, hl⟩
  | cons t ts ih =>
    intro st hd hl
    have hstep := handle_arm_latched_step st t hd hl
    have := ih (handle_arm_status st MOTORS_ARMED t) hstep.1 hstep.2
    simpa [run_arm_signals] using this

/-- C2: starting from Disarmed with a fresh debounce counter, exactly N − 1 = 4
    consecutive arm signals followed by one non-arm signal leave the state Disarmed
    (any throttles, any latch state); with throttle below the minimum-to-arm
    threshold and the initial disarm observed (latch clear), k < 5 consecutive arm
    signals leave the state Disarmed, while N = 5 consecutive arm signals transition
    it to Armed on exactly the 5th signal. -/
theorem arming_debounce (t td t5 : ℚ) (hto ri ac : Bool) (k : ℕ)
    (h5 : t5 < THROTTLE_MAX_TO_ARM) (hk : k < NUM_ARM_DISARM_SIGNALS_REQUIRED) :
    (run_arm_signals ⟨0, 0, ArmStatus.Disarmed, hto, ri, ac⟩
        (List.replicate 4 (MOTORS_ARMED, t) ++ [(ArmStatus.Disarmed, td)])).arm_status
      = ArmStatus.Disarmed
    ∧ (run_arm_signals ⟨0, 0, ArmStatus.Disarmed, hto, true, false⟩
        (List.replicate k (MOTORS_ARMED, t5))).arm_status = ArmStatus.Disarmed
    ∧ (run_arm_signals ⟨0, 0, ArmStatus.Disarmed, hto, true, false⟩
        (List.replicate 5 (MOTORS_ARMED, t5))).arm_status = ArmStatus.Armed := by
  refine ⟨rfl, ?_, ?_⟩
  · simp only [NUM_ARM_DISARM_SIGNALS_REQUIRED] at hk
    interval_cases k <;> rfl
  · show (handle_arm_status ⟨4, 0, ArmStatus.Disarmed, hto, true, false⟩
        MOTORS_ARMED t5).arm_status = ArmStatus.Armed
    simp [handle_arm_status, h5, NUM_ARM_DISARM_SIGNALS_REQUIRED, MOTORS_ARMED]

/-- Witness for C2 with zero throttle and k = 4. -/
theorem arming_debounce_witness :
    ((0 : ℚ) < THROTTLE_MAX_TO_ARM ∧ 4 < NUM_ARM_DISARM_SIGNALS_REQUIRED)
    ∧ ((run_arm_signals ⟨0, 0, ArmStatus.Disarmed, false, false, false⟩
          (List.replicate 4 (MOTORS_ARMED, 0) ++ [(ArmStatus.Disarmed, 0)])).arm_status
        = ArmStatus.Disarmed
      ∧ (run_arm_signals ⟨0, 0, ArmStatus.Disarmed, false, true, false⟩
          (List.replicate 4 (MOTORS_ARMED, 0))).arm_status = ArmStatus.Disarmed
      ∧ (run_arm_signals ⟨0, 0, ArmStatus.Disarmed, false, true, false⟩
          (List.replicate 5 (MOTORS_ARMED, 0))).arm_status = ArmStatus.Armed) :=
  ⟨⟨by norm_num [THROTTLE_MAX_TO_ARM], by norm_num [NUM_ARM_DISARM_SIGNALS_REQUIRED]⟩,
    arming_debounce 0 0 0 false false false 4
      (by norm_num [THROTTLE_MAX_TO_ARM])
      (by norm_num [NUM_ARM_DISARM_SIGNALS_REQUIRED])⟩

/-- C6: from Disarmed with the latch clear, completing the N-signal arm debounce with
    throttle not idle sets the `ARM_COMMANDED_WITHOUT_IDLE` latch and does not arm;
    while the latch is set, no sequence of arm signals (any throttle values) ever
    reaches Armed and the latch stays set; a signal with the switch back in the
    disarmed position clears the latch. -/
theorem arming_latch (st : SafetyState) (t : ℚ) (ts : List ℚ) :
    (st.arm_status = ArmStatus.Disarmed → st.arm_commanded_without_idle = false →
      st.arm_signals_received = 4 → ¬ t < THROTTLE_MAX_TO_ARM →
      (handle_arm_status st MOTORS_ARMED t).arm_commanded_without_idle = true
      ∧ (handle_arm_status st MOTORS_ARMED t).arm_status = ArmStatus.Disarmed)
    ∧ (st.arm_status = ArmStatus.Disarmed → st.arm_commanded_without_idle = true →
      (run_arm_signals st (ts.map (fun x => (MOTORS_ARMED, x)))).arm_status
        = ArmStatus.Disarmed
      ∧ (run_arm_signals st (ts.map (fun x => (MOTORS_ARMED, x)))).arm_commanded_without_idle
        = true)
    ∧ (st.arm_status = ArmStatus.Disarmed →
      (handle_arm_status st ArmStatus.Disarmed t).arm_commanded_without_idle = false) := by
  refine ⟨?_, ?_, ?_⟩
  · intro hd hl hc hni
    simp [handle_arm_status, hd, hl, hc, hni, NUM_ARM_DISARM_SIGNALS_REQUIRED, MOTORS_ARMED]
  · intro hd hl
    exact run_arm_latched ts st hd hl
  · intro hd
    simp [handle_arm_status, hd, NUM_ARM_DISARM_SIGNALS_REQUIRED, MOTORS_ARMED]

/-- Witness for C6 at a concrete latched state and signal sequence. -/
theorem arming_latch_witness :
    ((⟨4, 0, ArmStatus.Disarmed, false, true, false⟩ : SafetyState).arm_status
        = ArmStatus.Disarmed
      ∧ (⟨4, 0, ArmStatus.Disarmed, false, true, false⟩ : SafetyState).arm_commanded_without_idle
        = false
      ∧ (⟨4, 0, ArmStatus.Disarmed, false, true, false⟩ : SafetyState).arm_signals_received = 4
      ∧ ¬ (1 : ℚ) < THROTTLE_MAX_TO_ARM)
    ∧ ((handle_arm_status ⟨4, 0, ArmStatus.Disarmed, false, true, false⟩ MOTORS_ARMED
          1).arm_commanded_without_idle = true
      ∧ (handle_arm_status ⟨4, 0, ArmStatus.Disarmed, false, true, false⟩ MOTORS_ARMED
          1).arm_status = ArmStatus.Disarmed)
    ∧ ((run_arm_signals ⟨0, 0, ArmStatus.Disarmed, false, true, true⟩
          ([0, 1, 0, 0, 0, 0, 0, 1].map (fun x => (MOTORS_ARMED, x)))).arm_status
        = ArmStatus.Disarmed
      ∧ (run_arm_signals ⟨0, 0, ArmStatus.Disarmed, false, true, true⟩
          ([0, 1, 0, 0, 0, 0, 0, 1].map (fun x => (MOTORS_ARMED, x)))).arm_commanded_without_idle
        = true) :=
  ⟨⟨rfl, rfl, rfl, by norm_num [THROTTLE_MAX_TO_ARM]⟩,
    (arming_latch ⟨4, 0, ArmStatus.Disarmed, false, true, false⟩ 1 []).1 rfl rfl rfl
      (by norm_num [THROTTLE_MAX_TO_ARM]),
    (arming_latch ⟨0, 0, ArmStatus.Disarmed, false, true, true⟩ 0
      [0, 1, 0, 0, 0, 0, 0, 1]).2.1 rfl rfl⟩

/-- Concatenating a shifted word with a small word by bitwise-or is addition. -/
lemma shiftLeft_lor_eq (a b k : ℕ) (hb : b < 2 ^ k) : (a <<< k) ||| b = a * 2 ^ k + b := by
  rw [Nat.shiftLeft_eq, Nat.mul_comm a (2 ^ k), ← Nat.mul_add_lt_is_or hb, Nat.mul_comm]

/-- Complementing within 16 bits and masking to 4 bits equals masking then
    complementing within 4 bits. -/
lemma not_mask_eq (x : ℕ) : (x ^^^ 65535) &&& 15 = (x &&& 15) ^^^ 15 := by
  apply Nat.eq_of_testBit_eq
  intro i
  simp only [Nat.testBit_and, Nat.testBit_xor]
  have h15 : Nat.testBit 15 i = decide (i < 4) := by
    have h : (15 : ℕ) = 2 ^ 4 - 1 := by norm_num
    rw [h, Nat.testBit_two_pow_sub_one]
  have h65535 : Nat.testBit 65535 i = decide (i < 16) := by
    have h : (65535 : ℕ) = 2 ^ 16 - 1 := by norm_num
    rw [h, Nat.testBit_two_pow_sub_one]
  rw [h15, h65535]
  by_cases hi : i < 4
  · have h16 : i < 16 := by omega
    simp [hi, h16]
  · simp [hi]

/-- The DSHOT checksum is a 4-bit value. -/
lemma calc_crc_lt (p : ℕ) : calc_crc p < 16 := by
  have h : calc_crc p ≤ 15 := by
    unfold calc_crc
    split_ifs <;> exact Nat.and_le_right
  omega

/-- C4: for every power value in [0, 1] and telemetry-bit setting, the DSHOT encoder
    packs the 11-bit data word ⌊power·1999⌋ + 48 (power 0 gives 48, not the reserved
    0 disarm code; power 1 gives 2047; the word stays within 48..2047, clear of the
    reserved codes 0..47), appends the telemetry bit, and concatenates data word,
    telemetry bit and 4-bit checksum MSB-first into a 16-bit frame
    (frame = (word·2 + telem)·16 + crc < 2^16), where the checksum is
    (packet ^ (packet>>4) ^ (packet>>8)) & 0xF, additionally inverted (within
    4 bits) in the bidirectional variant in use. -/
theorem dshot_encode (pwr : ℚ) (telem : Bool) (h0 : 0 ≤ pwr) (h1 : pwr ≤ 1) :
    setup_payload_data_word (CmdType.Power pwr) = Int.toNat ⌊pwr * 1999⌋ + 48
    ∧ 48 ≤ setup_payload_data_word (CmdType.Power pwr)
    ∧ setup_payload_data_word (CmdType.Power pwr) ≤ 2047
    ∧ setup_payload_data_word (CmdType.Power 0) = 48
    ∧ setup_payload_data_word (CmdType.Power 1) = 2047
    ∧ setup_payload_frame (CmdType.Power pwr) telem
        = (setup_payload_data_word (CmdType.Power pwr) * 2 + (if telem then 1 else 0)) * 16
          + calc_crc (setup_payload_data_word (CmdType.Power pwr) * 2 + (if telem then 1 else 0))
    ∧ setup_payload_frame (CmdType.Power pwr) telem < 65536
    ∧ (∀ p : ℕ, calc_crc p = ((p ^^^ (p >>> 4) ^^^ (p >>> 8)) &&& 15) ^^^ 15) := by
  have hf0 : (0 : ℤ) ≤ ⌊pwr * 1999⌋ := Int.floor_nonneg.mpr (by positivity)
  have hf1 : ⌊pwr * 1999⌋ ≤ 1999 := by
    have h : ⌊pwr * 1999⌋ ≤ ⌊(1999 : ℚ)⌋ := Int.floor_le_floor (by nlinarith)
    simpa using h
  have hword : setup_payload_data_word (CmdType.Power pwr) = Int.toNat ⌊pwr * 1999⌋ + 48 := by
    simp only [setup_payload_data_word]
    have h2 : Int.toNat ⌊pwr * 1999⌋ ≤ 1999 := by omega
    rw [min_eq_left (by omega), Nat.mod_eq_of_lt (by omega)]
  have hdw : setup_payload_data_word (CmdType.Power pwr) ≤ 2047 := by
    rw [hword]
    omega
  refine ⟨hword, by rw [hword]; omega, hdw, ?_, ?_, ?_⟩
  · norm_num [setup_payload_data_word]
  · norm_num [setup_payload_data_word]
    decide
  · set dw := setup_payload_data_word (CmdType.Power pwr) with hdwdef
    have ht : (if telem then 1 else 0) < 2 ^ 1 := by cases telem <;> norm_num
    have hmod1 : (dw <<< 1) % 65536 = dw <<< 1 := by
      have hsh1 : dw <<< 1 = dw * 2 := by rw [Nat.shiftLeft_eq, pow_one]
      exact Nat.mod_eq_of_lt (by omega)
    have hpacket : ((dw <<< 1) % 65536) ||| (if telem then 1 else 0)
        = dw * 2 + (if telem then 1 else 0) := by
      rw [hmod1, shiftLeft_lor_eq _ _ 1 ht, pow_one]
    set packet := dw * 2 + (if telem then 1 else 0) with hpk
    have hpacket_le : packet ≤ 4095 := by
      have h3 : (if telem then 1 else 0) ≤ 1 := by cases telem <;> norm_num
      omega
    have hmod4 : (packet <<< 4) % 65536 = packet <<< 4 := by
      have hsh4 : packet <<< 4 = packet * 16 := by rw [Nat.shiftLeft_eq]
      exact Nat.mod_eq_of_lt (by omega)
    have hcrc : calc_crc packet < 2 ^ 4 := by
      have h4 := calc_crc_lt packet
      omega
    have hframe : setup_payload_frame (CmdType.Power pwr) telem
        = packet * 16 + calc_crc packet := by
      simp only [setup_payload_frame]
      rw [← hdwdef, hpacket, hmod4, shiftLeft_lor_eq _ _ 4 hcrc]
      norm_num
    refine ⟨hframe, ?_, ?_⟩
    · rw [hframe]
      have h5 := calc_crc_lt packet
      omega
    · intro p
      simp only [calc_crc, BIDIR_EN, if_true]
      exact not_mask_eq _

/-- Witness for C4 at power one half with the telemetry bit set. -/
theorem dshot_encode_witness :
    ((0 : ℚ) ≤ 1 / 2 ∧ (1 / 2 : ℚ) ≤ 1)
    ∧ (setup_payload_data_word (CmdType.Power (1 / 2)) = Int.toNat ⌊(1 / 2 : ℚ) * 1999⌋ + 48
      ∧ 48 ≤ setup_payload_data_word (CmdType.Power (1 / 2))
      ∧ setup_payload_data_word (CmdType.Power (1 / 2)) ≤ 2047
      ∧ setup_payload_data_word (CmdType.Power 0) = 48
      ∧ setup_payload_data_word (CmdType.Power 1) = 2047
      ∧ setup_payload_frame (CmdType.Power (1 / 2)) true
          = (setup_payload_data_word (CmdType.Power (1 / 2)) * 2 + (if true then 1 else 0)) * 16
            + calc_crc (setup_payload_data_word (CmdType.Power (1 / 2)) * 2
              + (if true then 1 else 0))
      ∧ setup_payload_frame (CmdType.Power (1 / 2)) true < 65536
      ∧ (∀ p : ℕ, calc_crc p = ((p ^^^ (p >>> 4) ^^^ (p >>> 8)) &&& 15) ^^^ 15)) :=
  ⟨⟨by norm_num, by norm_num⟩, dshot_encode (1 / 2) true (by norm_num) (by norm_num)⟩

/-- A received bit-bang buffer holding a well-formed GCR telemetry frame that decodes
    to the 16-bit packet 0x1E0 (an eRPM reply with valid checksum, period 30 µs). -/
def dshot_rec_valid_frame : List Bool :=
  [true, false, true, true, true, false, true, false, false, true,
   false, false, true, false, true, true, false, true, true, true]

/-- A received bit-bang buffer with the line constantly low: its GCR quintets are not
    in the valid set, so decoding it is a GCR fault. -/
def dshot_rec_corrupt_frame : List Bool := List.replicate 20 false

/-- Rotor speed decoded from packet 0x1E0 = 480 exactly as `rpm_from_data` computes
    it (period 30 µs, 14 poles); numerically 50000/21 rad/s. -/
def dshot_rec_valid_rpm : ℚ :=
  1000000 / (((((480 >>> 4) &&& 0b111111111) <<< (480 >>> 13) : ℕ) : ℚ) * 14)

/-- C7: evaluation of `update_rpms` at a cycle where actuator 3's returned frame is
    corrupt while actuators 1, 2 and 4 return the same valid frame.  The valid frame
    decodes to packet 480 and, on its own, to a nonzero RPM; actuators 1 and 2 are
    updated and the fault flag is set without aborting the cycle — but actuator 4's
    RPM is also left unchanged, because the source decodes the fourth channel from
    `PAYLOAD_REC_BB_3` (actuator 3's buffer) while `PAYLOAD_REC_BB_4` is never read.
    This contradicts the claim that a fault in one actuator's frame leaves only that
    actuator's RPM un-updated. -/
theorem update_rpms_bug_eval :
    reduce_gcr_bit_count (gcr_step_1 (bool_array_to_u32 dshot_rec_valid_frame))
      = Except.ok 480
    ∧ reduce_gcr_bit_count (gcr_step_1 (bool_array_to_u32 dshot_rec_corrupt_frame))
      = Except.error RpmError.Gcr
    ∧ update_rpm_from_packet 0 (reduce_gcr_bit_count (gcr_step_1 (bool_array_to_u32
        dshot_rec_valid_frame))) = Except.ok dshot_rec_valid_rpm
    ∧ dshot_rec_valid_rpm ≠ 0
    ∧ (update_rpms ⟨0, 0, 0, 0⟩ false dshot_rec_valid_frame dshot_rec_valid_frame
        dshot_rec_corrupt_frame dshot_rec_valid_frame).1.aft_right = dshot_rec_valid_rpm
    ∧ (update_rpms ⟨0, 0, 0, 0⟩ false dshot_rec_valid_frame dshot_rec_valid_frame
        dshot_rec_corrupt_frame dshot_rec_valid_frame).1.front_right = dshot_rec_valid_rpm
    ∧ (update_rpms ⟨0, 0, 0, 0⟩ false dshot_rec_valid_frame dshot_rec_valid_frame
        dshot_rec_corrupt_frame dshot_rec_valid_frame).1.aft_left = 0
    ∧ (update_rpms ⟨0, 0, 0, 0⟩ false dshot_rec_valid_frame dshot_rec_valid_frame
        dshot_rec_corrupt_frame dshot_rec_valid_frame).1.front_left = 0
    ∧ (update_rpms ⟨0, 0, 0, 0⟩ false dshot_rec_valid_frame dshot_rec_valid_frame
        dshot_rec_corrupt_frame dshot_rec_valid_frame).2 = true := by
  have hrpm : dshot_rec_valid_rpm ≠ 0 := by
    have h : (((480 >>> 4) &&& 0b111111111) <<< (480 >>> 13) : ℕ) = 30 := by decide
    rw [dshot_rec_valid_rpm, h]
    norm_num
  exact ⟨rfl, rfl, rfl, hrpm, rfl, rfl, rfl, rfl, rfl⟩

/-- Concrete target location used to exercise the autopilot apply step. -/
def ap_pt0 : Location := ⟨1, 2, 50⟩

/-- Concrete vehicle-state snapshot used to exercise the autopilot apply step. -/
def ap_params0 : Params := ⟨0, 0, 10, none⟩

/-- Sensor status with a GPS fix and no time-of-flight sensor. -/
def ap_sensors0 : OptionalSensorStatus := ⟨true, false⟩

/-- Command vector with no axis commanded. -/
def ap_inputs0 : CtrlInputs := ⟨none, none, none, none⟩

/-- Concrete thrust-axis gains. -/
def ap_coeffs0 : CtrlCoeffsThrust := ⟨1, 0, 0⟩

/-- Autopilot status with every behavior off. -/
def ap_idle : AutopilotStatus :=
  ⟨none, none, false, false, none, none, false, none, false, none, none, none⟩

/-- C9 counterexample: the quad apply step evaluates takeoff before land and
    direct-to-point, and never consults the recover field.  With takeoff set and
    direct-to-point engaged (GPS available), no yaw command is produced, although
    the claimed precedence (direct-to-point above takeoff) requires one — as the
    second conjunct shows it would be produced with takeoff clear.  With recovery
    triggered (`recover = some 30`), the lower-priority direct-to-point behavior
    still engages and commands yaw, contradicting the claim that recovery, once
    triggered, cannot be overridden by a lower-priority mode. -/
theorem autopilot_precedence_counterexample :
    (({ ap_idle with takeoff := true, direct_to_point := some ap_pt0 } : AutopilotStatus).apply
      ap_params0 ap_inputs0 ap_inputs0 PidState.default ⟨0, 0, 0, 0⟩ ap_coeffs0 ap_sensors0
      (fun _ _ => 7)).1.yaw = none
    ∧ (({ ap_idle with direct_to_point := some ap_pt0 } : AutopilotStatus).apply
      ap_params0 ap_inputs0 ap_inputs0 PidState.default ⟨0, 0, 0, 0⟩ ap_coeffs0 ap_sensors0
      (fun _ _ => 7)).1.yaw = some 7
    ∧ (({ ap_idle with recover := some 30, direct_to_point := some ap_pt0 }
        : AutopilotStatus).apply
      ap_params0 ap_inputs0 ap_inputs0 PidState.default ⟨0, 0, 0, 0⟩ ap_coeffs0 ap_sensors0
      (fun _ _ => 7)).1.yaw = some 7 :=
  ⟨rfl, rfl, rfl⟩

/-- C9 amended: in the quad apply step the primary behaviors are mutually exclusive
    through a fixed if/else chain with precedence takeoff > land > direct-to-point >
    loiter (the takeoff and land branches are placeholders, so when either is set
    the apply step returns all commands unchanged); when takeoff is clear and no
    landing is set, an engaged direct-to-point with GPS commands exactly the yaw
    axis toward the bearing; and the recover field does not participate in the
    apply step at all — recovery is handled outside it — so at most one primary
    branch acts per evaluation, but not in the claimed order and without any
    recovery override. -/
theorem autopilot_precedence_amended (s : AutopilotStatus) (params : Params)
    (att rat : CtrlInputs) (pid : PidState) (f : BiquadState) (co : CtrlCoeffsThrust)
    (sen : OptionalSensorStatus) (fb : (ℚ × ℚ) → (ℚ × ℚ) → ℚ) :
    (s.takeoff = true → s.apply params att rat pid f co sen fb = (att, rat, pid, f))
    ∧ (∀ cfg : LandingCfg, s.takeoff = false → s.land = some cfg →
        s.apply params att rat pid f co sen fb = (att, rat, pid, f))
    ∧ (∀ pt : Location, s.takeoff = false → s.land = none → s.direct_to_point = some pt →
        sen.gps_connected = true →
        (s.apply params att rat pid f co sen fb).1
          = { att with yaw := some (fb (params.lat, params.lon) (pt.lat, pt.lon)) })
    ∧ (∀ r : Option ℚ, ({ s with recover := r } : AutopilotStatus).apply
        params att rat pid f co sen fb = s.apply params att rat pid f co sen fb) := by
  refine ⟨?_, ?_, ?_, fun r => rfl⟩
  · intro h
    simp only [AutopilotStatus.apply, h]
    cases halt : s.alt_hold with
    | none => simp
    | some v => simp
  · intro cfg h hl
    simp only [AutopilotStatus.apply, h, hl]
    cases halt : s.alt_hold with
    | none => simp
    | some v => simp
  · intro pt h hl hd hg
    simp only [AutopilotStatus.apply, h, hl, hd, hg]
    cases halt : s.alt_hold with
    | none => simp
    | some v => simp

/-- Witness for C9 amended, applying it with takeoff set at concrete inputs. -/
theorem autopilot_precedence_amended_witness :
    ({ ap_idle with takeoff := true, direct_to_point := some ap_pt0 }
        : AutopilotStatus).takeoff = true
    ∧ ({ ap_idle with takeoff := true, direct_to_point := some ap_pt0 }
        : AutopilotStatus).apply ap_params0 ap_inputs0 ap_inputs0 PidState.default
        ⟨0, 0, 0, 0⟩ ap_coeffs0 ap_sensors0 (fun _ _ => 7)
      = (ap_inputs0, ap_inputs0, PidState.default, ⟨0, 0, 0, 0⟩) :=
  ⟨rfl,
    (autopilot_precedence_amended
      { ap_idle with takeoff := true, direct_to_point := some ap_pt0 }
      ap_params0 ap_inputs0 ap_inputs0 PidState.default ⟨0, 0, 0, 0⟩ ap_coeffs0 ap_sensors0
      (fun _ _ => 7)).1 rfl⟩

end Quadcopter
